import Mathlib

set_option linter.unusedVariables false

/-!
Shallow embedding of the vad_plus boundary layer: the stub build
(src/src/vad_plus.c) and the Android JNI bridge
(src/android/src/main/jni/vad_plus_jni.cpp).

Machine floats are modelled as rationals: every float literal in the source
(0.5f, 0.35f, 32767.0f, 32768.0f) is exactly representable at the precision
the properties use, and the C float-to-int cast is truncation toward zero,
modelled by ratTrunc.  C strings are modelled as List Char (NUL-free
contents), C pointers as natural numbers with 0 for NULL.
-/

namespace VadPlus

/-- Truncation toward zero on rationals: the semantics of the C cast
`(int16_t)(f)` for an in-range float `f`. -/
def ratTrunc (q : ℚ) : ℤ := if 0 ≤ q then ⌊q⌋ else ⌈q⌉

/-- The clamping sequence of vad_float_to_pcm16 (vad_plus.c lines 122-126,
vad_plus_jni.cpp lines 1056-1060): `if (clamped > 1.0f) clamped = 1.0f;
if (clamped < -1.0f) clamped = -1.0f;`. -/
def clampSample (x : ℚ) : ℚ :=
  let c1 := if 1 < x then 1 else x
  if c1 < -1 then -1 else c1

/-- One element of vad_float_to_pcm16: clamp then
`(int16_t)(clamped * 32767.0f)` (vad_plus.c line 127). -/
def vad_float_to_pcm16_sample (x : ℚ) : ℤ := ratTrunc (clampSample x * 32767)

/-- vad_float_to_pcm16 (vad_plus.c lines 118-129, vad_plus_jni.cpp lines
1052-1063): element-wise loop over the input buffer. -/
def vad_float_to_pcm16 (xs : List ℚ) : List ℤ := xs.map vad_float_to_pcm16_sample

/-- One element of vad_pcm16_to_float: `(float)pcm16_samples[i] / 32768.0f`
(vad_plus.c line 135). -/
def vad_pcm16_to_float_sample (n : ℤ) : ℚ := (n : ℚ) / 32768

/-- vad_pcm16_to_float (vad_plus.c lines 131-137, vad_plus_jni.cpp lines
1065-1071): element-wise loop over the input buffer. -/
def vad_pcm16_to_float (ns : List ℤ) : List ℚ := ns.map vad_pcm16_to_float_sample

/-- The spec's wording of the float-to-pcm16 element map: clamp the sample to
[-1.0, 1.0], scale by 32767, truncate toward zero. -/
def specFloatToPcm16 (x : ℚ) : ℤ := ratTrunc (max (-1) (min 1 x) * 32767)

/-- VADConfig (vad_plus.h lines 23-43, vad_plus_jni.cpp lines 36-47).
Float fields as rationals, the is_debug flag as Bool (stored as 0/false). -/
structure VADConfig where
  positive_speech_threshold : ℚ
  negative_speech_threshold : ℚ
  pre_speech_pad_frames : ℤ
  redemption_frames : ℤ
  min_speech_frames : ℤ
  sample_rate : ℤ
  frame_samples : ℤ
  end_speech_pad_frames : ℤ
  is_debug : Bool
deriving DecidableEq

namespace Stub

/-- The stub build's fixed error string (vad_plus.c line 29). -/
def stub_error : List Char := "VAD not supported on this platform".toList

/-- Stub vad_config_default (vad_plus.c lines 31-44).  The out-pointer is
modelled as `Option VADConfig`: `none` is the NULL pointer (the function
returns without writing), `some old` is a non-null location whose prior
contents are `old`; the result is the memory after the call. -/
def vad_config_default (config_out : Option VADConfig) : Option VADConfig :=
  match config_out with
  | none => none
  | some _ => some
      { positive_speech_threshold := 0.5
        negative_speech_threshold := 0.35
        pre_speech_pad_frames := 3
        redemption_frames := 24
        min_speech_frames := 9
        sample_rate := 16000
        frame_samples := 512
        end_speech_pad_frames := 3
        is_debug := false }

/-- Stub vad_create (vad_plus.c lines 46-50): always returns the dummy
non-null pointer `(VADHandle *)1`, with no state consulted or updated. -/
def vad_create : ℕ := 1

/-- The handles returned by `n` successive stub vad_create calls (the stub
has no state, so every call evaluates the same constant). -/
def stubCreateResults (n : ℕ) : List ℕ := (List.range n).map (fun _ => vad_create)

/-- Stub vad_init (vad_plus.c lines 57-63). -/
def vad_init (handle : ℕ) (config : Option VADConfig) (model_path : Option (List Char)) : ℤ :=
  -100

/-- Stub vad_start (vad_plus.c lines 77-81). -/
def vad_start (handle : ℕ) : ℤ := -100

/-- Stub vad_process_audio (vad_plus.c lines 88-94). -/
def vad_process_audio (handle : ℕ) (samples : List ℚ) (sample_count : ℤ) : ℤ := -100

/-- Stub vad_get_last_error (vad_plus.c lines 112-116): returns the fixed
static string for every handle. -/
def vad_get_last_error (handle : ℕ) : List Char := stub_error

end Stub

namespace Jni

/-- VADEventC (vad_plus_jni.cpp lines 16-34).  Payload pointers are modelled
by `Option` carrying the pointed-to content: `none` is a null pointer (the
value `memset` leaves in the field). -/
structure VADEventC where
  type : ℤ
  frame_probability : ℚ
  frame_is_speech : ℤ
  frame_data : Option (List ℚ)
  frame_length : ℤ
  speech_end_audio_data : Option (List ℤ)
  speech_end_audio_length : ℤ
  speech_end_duration_ms : ℤ
  error_message : Option (List Char)
  error_code : ℤ
deriving DecidableEq

/-- The all-zero event record produced by `memset(event, 0, sizeof(VADEventC))`. -/
def zeroEvent : VADEventC :=
  { type := 0
    frame_probability := 0
    frame_is_speech := 0
    frame_data := none
    frame_length := 0
    speech_end_audio_data := none
    speech_end_audio_length := 0
    speech_end_duration_ms := 0
    error_message := none
    error_code := 0 }

/-- A heap block the bridge allocates during one delivery: the `new VADEventC`
record, the `new int16_t[...]` audio copy, or the `strdup` message copy. -/
inductive BridgeAlloc where
  | eventRecord
  | audioCopy (data : List ℤ)
  | msgCopy (s : List Char)
deriving DecidableEq

/-- What one native delivery routine did by the time it returned: the callback
invocation it performed (function pointer, user-data pointer, event record
passed), the heap blocks it allocated, and those it freed.  JNI borrow
releases (ReleaseShortArrayElements / ReleaseStringUTFChars) return borrowed
JVM memory, not bridge allocations, and are not listed. -/
structure DeliveryTrace where
  invoked : Option (ℕ × ℕ × VADEventC)
  allocated : List BridgeAlloc
  freed : List BridgeAlloc
deriving DecidableEq

/-- nativeSendEvent (vad_plus_jni.cpp lines 239-262): null-check on the
callback pointer, heap-allocate a zeroed event record with the given type,
invoke the callback; nothing is freed afterwards. -/
def nativeSendEvent (callbackPtr userDataPtr : ℕ) (type : ℤ) : DeliveryTrace :=
  if callbackPtr = 0 then ⟨none, [], []⟩
  else
    ⟨some (callbackPtr, userDataPtr, { zeroEvent with type := type }),
     [BridgeAlloc.eventRecord], []⟩

/-- nativeSendFrameEvent (vad_plus_jni.cpp lines 264-288): type 3, sets
probability, is_speech and frame_length; frame_data stays null (memset). -/
def nativeSendFrameEvent (callbackPtr userDataPtr : ℕ) (probability : ℚ)
    (isSpeech : Bool) (frameLength : ℤ) : DeliveryTrace :=
  if callbackPtr = 0 then ⟨none, [], []⟩
  else
    ⟨some (callbackPtr, userDataPtr,
      { zeroEvent with
          type := 3
          frame_probability := probability
          frame_is_speech := if isSpeech then 1 else 0
          frame_length := frameLength }),
     [BridgeAlloc.eventRecord], []⟩

/-- nativeSendSpeechEndEvent (vad_plus_jni.cpp lines 290-324): after the
null-check, copies audioLength samples out of the Java array into a fresh
heap buffer, builds a type 2 event around the copy, invokes the callback;
neither the copy nor the record is freed before returning. -/
def nativeSendSpeechEndEvent (callbackPtr userDataPtr : ℕ) (audioData : List ℤ)
    (audioLength : ℤ) (durationMs : ℤ) : DeliveryTrace :=
  if callbackPtr = 0 then ⟨none, [], []⟩
  else
    let audioCopy := audioData.take audioLength.toNat
    ⟨some (callbackPtr, userDataPtr,
      { zeroEvent with
          type := 2
          speech_end_audio_data := some audioCopy
          speech_end_audio_length := audioLength
          speech_end_duration_ms := durationMs }),
     [BridgeAlloc.audioCopy audioCopy, BridgeAlloc.eventRecord], []⟩

/-- nativeSendErrorEvent (vad_plus_jni.cpp lines 326-353): after the
null-check, `strdup`s the message into a fresh heap buffer, builds a type 6
event around the copy, invokes the callback; nothing is freed before
returning. -/
def nativeSendErrorEvent (callbackPtr userDataPtr : ℕ) (message : List Char)
    (code : ℤ) : DeliveryTrace :=
  if callbackPtr = 0 then ⟨none, [], []⟩
  else
    ⟨some (callbackPtr, userDataPtr,
      { zeroEvent with
          type := 6
          error_message := some message
          error_code := code }),
     [BridgeAlloc.msgCopy message, BridgeAlloc.eventRecord], []⟩

/-- An operation on one session's callback registration. -/
inductive CbOp where
  | set (fn ud : ℕ)
  | inv
deriving DecidableEq

/-- Modelled from the spec: the Kotlin-side VADHandleInternal callback slot
(the Kotlin source is not in the repository snapshot; vad_set_callback calls
its `setCallback(JJ)V` and vad_invalidate_callback its `invalidateCallback()V`,
vad_plus_jni.cpp lines 654-660 and 695-699).  The slot holds the
(function pointer, user data) pair, (0, 0) when absent; `set` stores a pair
and `inv` clears it.  One atomic step per operation gives the sequentially
consistent interleaving semantics of §4.3 and §5 of the spec. -/
def applyCbOp : ℕ × ℕ → CbOp → ℕ × ℕ
  | _, CbOp.set f u => (f, u)
  | _, CbOp.inv => (0, 0)

/-- The callback slot contents after a sequence of operations, starting from
the absent state. -/
def slotAfter (ops : List CbOp) : ℕ × ℕ := ops.foldl applyCbOp (0, 0)

/-- JNI vad_config_default (vad_plus_jni.cpp lines 362-375), same out-pointer
convention as the stub model. -/
def vad_config_default (config_out : Option VADConfig) : Option VADConfig :=
  match config_out with
  | none => none
  | some _ => some
      { positive_speech_threshold := 0.5
        negative_speech_threshold := 0.35
        pre_speech_pad_frames := 3
        redemption_frames := 24
        min_speech_frames := 9
        sample_rate := 16000
        frame_samples := 512
        end_speech_pad_frames := 3
        is_debug := false }

/-- A `const char *` value returned by vad_get_last_error: either one of the
fixed string literals in the function, or a pointer to the process-wide
static buffer g_lastErrorBuffer. -/
inductive CharPtr where
  | literal (s : List Char)
  | staticBuf
deriving DecidableEq

/-- The string a caller reads through a returned `const char *`, given the
current contents of g_lastErrorBuffer. -/
def observe (p : CharPtr) (buf : List Char) : List Char :=
  match p with
  | CharPtr.literal s => s
  | CharPtr.staticBuf => buf

/-- Outcome of the JNI interaction for a handle that getHandle resolved
(vad_plus_jni.cpp lines 1000-1043): each failure arm of the function, or the
non-null message obtained from GetStringUTFChars. -/
inductive ErrFetch where
  | classFail
  | methodFail
  | callExn
  | nullString
  | utfFail
  | msg (s : List Char)
deriving DecidableEq

/-- The result of one vad_get_last_error call: the contents of
g_lastErrorBuffer after the call, and the returned pointer (`none` would be a
NULL return, which no branch produces). -/
structure ErrResult where
  buf : List Char
  ret : Option CharPtr
deriving DecidableEq

/-- JNI vad_get_last_error (vad_plus_jni.cpp lines 981-1050).  `buf` is the
g_lastErrorBuffer contents before the call; `envOk` is whether getEnv
succeeded; `lookup` gives, per handle id, `none` when getHandle returned null
and otherwise the outcome of fetching the session's message.  On a non-null
message the code runs `strncpy(g_lastErrorBuffer, errorChars, 1023)` and
NUL-terminates, i.e. stores the first 1023 bytes, and returns the buffer;
when GetStringUTFChars returns null it empties the buffer and returns it. -/
def vad_get_last_error (buf : List Char) (handle : ℕ) (envOk : Bool)
    (lookup : ℕ → Option ErrFetch) : ErrResult :=
  if handle = 0 then ⟨buf, some (CharPtr.literal "Invalid handle".toList)⟩
  else if envOk = false then ⟨buf, some (CharPtr.literal "JNI error".toList)⟩
  else
    match lookup handle with
    | none => ⟨buf, some (CharPtr.literal "Handle not found".toList)⟩
    | some ErrFetch.classFail => ⟨buf, some (CharPtr.literal "Failed to get handle class".toList)⟩
    | some ErrFetch.methodFail => ⟨buf, some (CharPtr.literal "Method not found".toList)⟩
    | some ErrFetch.callExn => ⟨buf, some (CharPtr.literal "Exception getting error".toList)⟩
    | some ErrFetch.nullString => ⟨buf, some (CharPtr.literal [])⟩
    | some ErrFetch.utfFail => ⟨[], some CharPtr.staticBuf⟩
    | some (ErrFetch.msg s) => ⟨s.take 1023, some CharPtr.staticBuf⟩

/-- An operation on the handle registry. -/
inductive RegOp where
  | create
  | remove (id : ℕ)
deriving DecidableEq

/-- Modelled from the spec: the Kotlin-side VadPlusHandleManager registry
state (the Kotlin source is not in the repository snapshot; vad_create calls
its `createHandle()J` and vad_destroy its `removeHandle(J)V`,
vad_plus_jni.cpp lines 397-420 and 437-445).  Per spec §3 the id is "unique
for the process lifetime of the registry (never reused)": a monotone counter
issues fresh ids, and removal never rewinds it. -/
structure Registry where
  nextId : ℕ
  live : List ℕ
deriving DecidableEq

/-- One registry operation, also accumulating the list of ids handed out by
create calls so far. -/
def regStep : Registry × List ℕ → RegOp → Registry × List ℕ
  | (r, acc), RegOp.create => (⟨r.nextId + 1, r.nextId :: r.live⟩, acc ++ [r.nextId])
  | (r, acc), RegOp.remove id => (⟨r.nextId, r.live.erase id⟩, acc)

/-- Run a sequence of registry operations from the initial registry; the
second component lists every id returned by a create call, in order. -/
def runReg (ops : List RegOp) : Registry × List ℕ := ops.foldl regStep (⟨0, []⟩, [])

end Jni

/-! ## Helper lemmas -/

/-- The sequential clamp of the source equals the spec's clamp to [-1, 1]. -/
theorem clampSample_eq_clamp (x : ℚ) : clampSample x = max (-1) (min 1 x) := by
  simp only [clampSample, max_def, min_def]
  split_ifs <;> linarith

/-- Pointwise, the source's float-to-pcm16 element map is the spec formula. -/
theorem sample_eq_spec (x : ℚ) : vad_float_to_pcm16_sample x = specFloatToPcm16 x := by
  simp only [vad_float_to_pcm16_sample, specFloatToPcm16, clampSample_eq_clamp]

/-- Folding only invalidation operations keeps the callback slot cleared. -/
theorem foldl_inv_cleared (mid : List Jni.CbOp)
    (hmid : ∀ op ∈ mid, op = Jni.CbOp.inv) :
    mid.foldl Jni.applyCbOp (0, 0) = (0, 0) := by
  induction mid with
  | nil => rfl
  | cons a l ih =>
      have ha : a = Jni.CbOp.inv := hmid a (by simp)
      subst ha
      exact ih (fun op hop => hmid op (by simp [hop]))

/-- After any history ending in an invalidation (followed at most by further
invalidations), the callback slot reads (0, 0). -/
theorem slotAfter_invalidated (pre mid : List Jni.CbOp)
    (hmid : ∀ op ∈ mid, op = Jni.CbOp.inv) :
    Jni.slotAfter (pre ++ Jni.CbOp.inv :: mid) = (0, 0) := by
  unfold Jni.slotAfter
  rw [List.foldl_append]
  exact foldl_inv_cleared mid hmid

/-! ## Claims -/

/-- C1: When a delivery routine of the Dispatch Bridge runs for a session
whose callback pointer is null, no callback is invoked (the event is
dropped) and no bridge-allocated buffer for the event remains when the
routine returns: the null-check precedes every allocation, so the SpeechEnd
audio copy, the Error message copy and the event record are never even
allocated, and nothing is retained.  This holds for all four native delivery
routines and all payload arguments. -/
theorem null_callback_drops_and_leaks_nothing (cb ud : ℕ) (ty : ℤ) (prob : ℚ)
    (isSp : Bool) (flen : ℤ) (audio : List ℤ) (alen dur : ℤ) (msg : List Char)
    (code : ℤ) (hcb : cb = 0) :
    (Jni.nativeSendEvent cb ud ty).invoked = none ∧
    (Jni.nativeSendEvent cb ud ty).allocated = [] ∧
    (Jni.nativeSendFrameEvent cb ud prob isSp flen).invoked = none ∧
    (Jni.nativeSendFrameEvent cb ud prob isSp flen).allocated = [] ∧
    (Jni.nativeSendSpeechEndEvent cb ud audio alen dur).invoked = none ∧
    (Jni.nativeSendSpeechEndEvent cb ud audio alen dur).allocated = [] ∧
    (Jni.nativeSendErrorEvent cb ud msg code).invoked = none ∧
    (Jni.nativeSendErrorEvent cb ud msg code).allocated = [] := by
  subst hcb
  simp [Jni.nativeSendEvent, Jni.nativeSendFrameEvent,
    Jni.nativeSendSpeechEndEvent, Jni.nativeSendErrorEvent]

/-- Witness for C1 at a concrete dropped SpeechEnd delivery. -/
theorem null_callback_drops_witness :
    (Jni.nativeSendSpeechEndEvent 0 5 [1, 2, 3] 3 100).allocated = [] :=
  (null_callback_drops_and_leaks_nothing 0 5 7 (1/2) true 512 [1, 2, 3] 3 100
    "boom".toList 9 rfl).2.2.2.2.2.1

/-- C2: Under the sequentially consistent interleaving semantics of the
callback slot, a delivery whose snapshot read happens after
vad_invalidate_callback cleared the slot (with no intervening set_callback)
reads (0, 0) and fires nothing; and a delivery that already passed the
callback-present check with snapshot (f, u), f nonzero, completes and
invokes exactly that snapshot — its outcome depends only on the snapshot, so
no later invalidation can affect it.  This holds for every history and every
event type, independently per session. -/
theorem invalidate_vs_delivery (pre mid : List Jni.CbOp) (ty : ℤ)
    (hmid : ∀ op ∈ mid, op = Jni.CbOp.inv) :
    (Jni.nativeSendEvent (Jni.slotAfter (pre ++ Jni.CbOp.inv :: mid)).1
      (Jni.slotAfter (pre ++ Jni.CbOp.inv :: mid)).2 ty).invoked = none ∧
    ∀ f u : ℕ, f ≠ 0 →
      (Jni.nativeSendEvent f u ty).invoked =
        some (f, u, { Jni.zeroEvent with type := ty }) := by
  constructor
  · rw [slotAfter_invalidated pre mid hmid]
    rfl
  · intro f u hf
    simp [Jni.nativeSendEvent, hf]

/-- Witness for C2: after set_callback(3, 4) then invalidate, a fresh
delivery fires nothing. -/
theorem invalidate_vs_delivery_witness :
    (Jni.nativeSendEvent
      (Jni.slotAfter ([Jni.CbOp.set 3 4] ++ Jni.CbOp.inv :: [])).1
      (Jni.slotAfter ([Jni.CbOp.set 3 4] ++ Jni.CbOp.inv :: [])).2 7).invoked
      = none :=
  (invalidate_vs_delivery [Jni.CbOp.set 3 4] [] 7 (by simp)).1

/-- C3 counterexample: at callback pointer 1, user data 2, event type 0,
nativeSendEvent does invoke the callback, allocates the heap event record it
hands to the callback, and has freed nothing by the time it returns — so the
bridge does not free the transient memory it allocated for the call. -/
theorem bridge_frees_record_counterexample :
    (Jni.nativeSendEvent 1 2 0).invoked.isSome = true ∧
    Jni.BridgeAlloc.eventRecord ∈ (Jni.nativeSendEvent 1 2 0).allocated ∧
    Jni.BridgeAlloc.eventRecord ∉ (Jni.nativeSendEvent 1 2 0).freed := by
  refine ⟨rfl, by simp [Jni.nativeSendEvent], by simp [Jni.nativeSendEvent]⟩

/-- C3 amended: for every event delivery in which the Dispatch Bridge does
invoke the registered callback, the bridge frees nothing before the delivery
routine returns; the heap-allocated event record (and the SpeechEnd audio
copy and Error message copy) are handed to the callback's receiver, which
the source comments make responsible for releasing them.  This holds for
every event kind. -/
theorem bridge_transfers_and_frees_nothing (cb ud : ℕ) (ty : ℤ) (prob : ℚ)
    (isSp : Bool) (flen : ℤ) (audio : List ℤ) (alen dur : ℤ) (msg : List Char)
    (code : ℤ) (hcb : cb ≠ 0) :
    ((Jni.nativeSendEvent cb ud ty).invoked.isSome = true ∧
      Jni.BridgeAlloc.eventRecord ∈ (Jni.nativeSendEvent cb ud ty).allocated ∧
      (Jni.nativeSendEvent cb ud ty).freed = []) ∧
    ((Jni.nativeSendFrameEvent cb ud prob isSp flen).invoked.isSome = true ∧
      Jni.BridgeAlloc.eventRecord ∈
        (Jni.nativeSendFrameEvent cb ud prob isSp flen).allocated ∧
      (Jni.nativeSendFrameEvent cb ud prob isSp flen).freed = []) ∧
    ((Jni.nativeSendSpeechEndEvent cb ud audio alen dur).invoked.isSome = true ∧
      Jni.BridgeAlloc.eventRecord ∈
        (Jni.nativeSendSpeechEndEvent cb ud audio alen dur).allocated ∧
      (Jni.nativeSendSpeechEndEvent cb ud audio alen dur).freed = []) ∧
    ((Jni.nativeSendErrorEvent cb ud msg code).invoked.isSome = true ∧
      Jni.BridgeAlloc.eventRecord ∈
        (Jni.nativeSendErrorEvent cb ud msg code).allocated ∧
      (Jni.nativeSendErrorEvent cb ud msg code).freed = []) := by
  simp [Jni.nativeSendEvent, Jni.nativeSendFrameEvent,
    Jni.nativeSendSpeechEndEvent, Jni.nativeSendErrorEvent, hcb]

/-- Witness for the amended C3 at a concrete invoked delivery. -/
theorem bridge_transfers_witness :
    (Jni.nativeSendErrorEvent 1 2 "oops".toList 5).freed = [] :=
  (bridge_transfers_and_frees_nothing 1 2 0 (1/2) false 512 [4, 5] 2 80
    "oops".toList 5 (by simp)).2.2.2.2.2

/-- C5: In the stub (no-engine, PlatformUnsupported) build, vad_init,
vad_start and vad_process_audio return -100, the reserved "platform/engine
unavailable" code, for every handle, configuration, model path and sample
buffer argument. -/
theorem stub_returns_minus_100 (h1 h2 h3 : ℕ) (config : Option VADConfig)
    (model_path : Option (List Char)) (samples : List ℚ) (sample_count : ℤ) :
    Stub.vad_init h1 config model_path = -100 ∧
    Stub.vad_start h2 = -100 ∧
    Stub.vad_process_audio h3 samples sample_count = -100 :=
  ⟨rfl, rfl, rfl⟩

/-- C6: For every non-null output location, vad_config_default writes exactly
the configuration (0.5, 0.35, 3, 24, 9, 16000, 512, 3, debug off), and the
stub and JNI builds behave identically on every input. -/
theorem config_default_values (old1 old2 : VADConfig) :
    Stub.vad_config_default (some old1) =
      some ⟨0.5, 0.35, 3, 24, 9, 16000, 512, 3, false⟩ ∧
    Jni.vad_config_default (some old2) =
      some ⟨0.5, 0.35, 3, 24, 9, 16000, 512, 3, false⟩ ∧
    ∀ c, Stub.vad_config_default c = Jni.vad_config_default c := by
  refine ⟨rfl, rfl, ?_⟩
  intro c
  cases c <;> rfl

/-- C7: For every input buffer, vad_float_to_pcm16 maps each element to the
int16 got by clamping the float to [-1, 1], scaling by 32767 and truncating
toward zero, and vad_pcm16_to_float maps each element to the int16 divided by
32768; both are pure element-wise maps: the output has exactly the input's
length (index i is in the output iff it is in the input), nothing else is
written. -/
theorem codec_elementwise (xs : List ℚ) (ns : List ℤ) :
    (vad_float_to_pcm16 xs).length = xs.length ∧
    (∀ i : ℕ, (vad_float_to_pcm16 xs)[i]? = Option.map specFloatToPcm16 xs[i]?) ∧
    (vad_pcm16_to_float ns).length = ns.length ∧
    (∀ i : ℕ, (vad_pcm16_to_float ns)[i]? =
      Option.map (fun n : ℤ => (n : ℚ) / 32768) ns[i]?) := by
  refine ⟨List.length_map _ _, ?_, List.length_map _ _, ?_⟩
  · intro i
    simp only [vad_float_to_pcm16, List.getElem?_map]
    cases xs[i]? <;> simp [sample_eq_spec]
  · intro i
    simp only [vad_pcm16_to_float, List.getElem?_map]
    rfl

/-- C8: Composing the two codecs element-wise sends 0.5 to PCM 16383 and back
to a float near 0.4999; clamps the out-of-range 1.5 to 32767 and back to a
float near 0.99997; and clamps the out-of-range -2.0 to -32767. -/
theorem codec_roundtrip_examples :
    vad_float_to_pcm16 [1/2, 3/2, -2] = [16383, 32767, -32767] ∧
    vad_pcm16_to_float [16383, 32767] = [16383/32768, 32767/32768] ∧
    ((4999/10000 : ℚ) < 16383/32768 ∧ (16383/32768 : ℚ) < 5000/10000) ∧
    ((99996/100000 : ℚ) < 32767/32768 ∧ (32767/32768 : ℚ) < 99997/100000) := by
  have e1 : vad_float_to_pcm16_sample (1/2) = 16383 := by
    have hc : clampSample (1/2 : ℚ) = 1/2 := by norm_num [clampSample]
    have hm : (1/2 : ℚ) * 32767 = 32767/2 := by norm_num
    rw [vad_float_to_pcm16_sample, hc, hm, ratTrunc, if_pos (by norm_num),
      Int.floor_eq_iff]
    norm_num
  have e2 : vad_float_to_pcm16_sample (3/2) = 32767 := by
    have hc : clampSample (3/2 : ℚ) = 1 := by norm_num [clampSample]
    have hm : (1 : ℚ) * 32767 = 32767 := by norm_num
    rw [vad_float_to_pcm16_sample, hc, hm, ratTrunc, if_pos (by norm_num),
      Int.floor_eq_iff]
    norm_num
  have e3 : vad_float_to_pcm16_sample (-2) = -32767 := by
    have hc : clampSample (-2 : ℚ) = -1 := by norm_num [clampSample]
    have hm : (-1 : ℚ) * 32767 = -32767 := by norm_num
    rw [vad_float_to_pcm16_sample, hc, hm, ratTrunc, if_neg (by norm_num),
      Int.ceil_eq_iff]
    norm_num
  refine ⟨?_, ?_, by norm_num, by norm_num⟩
  · rw [vad_float_to_pcm16]
    simp only [List.map]
    rw [e1, e2, e3]
  · norm_num [vad_pcm16_to_float, vad_pcm16_to_float_sample]

/-- C4 counterexample: for a valid handle whose stored message is 1024 bytes
of 'a', vad_get_last_error returns the static buffer holding only the first
1023 bytes — a string that is neither the session's stored message, nor the
empty string, nor one of the function's fixed sentinel literals (it is not
returned as a literal at all), so the claim's description of the returned
string is false at this input. -/
theorem get_last_error_truncation_counterexample :
    (Jni.vad_get_last_error [] 1 true
      (fun _ => some (Jni.ErrFetch.msg (List.replicate 1024 'a')))).ret =
      some Jni.CharPtr.staticBuf ∧
    (Jni.vad_get_last_error [] 1 true
      (fun _ => some (Jni.ErrFetch.msg (List.replicate 1024 'a')))).buf =
      List.replicate 1023 'a' ∧
    List.replicate 1023 'a' ≠ List.replicate 1024 'a' ∧
    List.replicate 1023 'a' ≠ ([] : List Char) := by
  refine ⟨rfl, ?_, ?_, ?_⟩
  · show List.take 1023 (List.replicate 1024 'a') = List.replicate 1023 'a'
    rw [List.take_replicate]
    norm_num
  · intro h
    have h2 := congrArg List.length h
    rw [List.length_replicate, List.length_replicate] at h2
    exact absurd h2 (by norm_num)
  · intro h
    have h2 := congrArg List.length h
    rw [List.length_replicate, List.length_nil] at h2
    exact absurd h2 (by norm_num)

/-- C4 amended: for every handle argument — null, never created, or already
destroyed — vad_get_last_error returns a non-null string: the stub build
always returns its fixed sentinel; the JNI build never returns a null
pointer, returns the fixed sentinels "Invalid handle" for a null handle,
"JNI error" when the host runtime is unreachable and "Handle not found" when
the id resolves to no session, and otherwise returns the session's stored
message truncated to at most 1023 bytes (or the empty string when the
session reports none). -/
theorem get_last_error_never_null (buf : List Char) (handle : ℕ) (envOk : Bool)
    (lookup : ℕ → Option Jni.ErrFetch) (hstub : ℕ) :
    Stub.vad_get_last_error hstub = "VAD not supported on this platform".toList ∧
    (Jni.vad_get_last_error buf handle envOk lookup).ret.isSome = true ∧
    (handle = 0 → (Jni.vad_get_last_error buf handle envOk lookup).ret =
      some (Jni.CharPtr.literal "Invalid handle".toList)) ∧
    (handle ≠ 0 → envOk = false →
      (Jni.vad_get_last_error buf handle envOk lookup).ret =
        some (Jni.CharPtr.literal "JNI error".toList)) ∧
    (handle ≠ 0 → envOk = true → lookup handle = none →
      (Jni.vad_get_last_error buf handle envOk lookup).ret =
        some (Jni.CharPtr.literal "Handle not found".toList)) ∧
    (∀ m, handle ≠ 0 → envOk = true →
      lookup handle = some (Jni.ErrFetch.msg m) →
      (Jni.vad_get_last_error buf handle envOk lookup).ret =
        some Jni.CharPtr.staticBuf ∧
      Jni.observe Jni.CharPtr.staticBuf
        (Jni.vad_get_last_error buf handle envOk lookup).buf = m.take 1023) ∧
    (handle ≠ 0 → envOk = true → lookup handle = some Jni.ErrFetch.nullString →
      (Jni.vad_get_last_error buf handle envOk lookup).ret =
        some (Jni.CharPtr.literal [])) := by
  refine ⟨rfl, ?_, ?_, ?_, ?_, ?_, ?_⟩
  · unfold Jni.vad_get_last_error
    split
    · rfl
    · split
      · rfl
      · split <;> rfl
  · intro hh
    simp [Jni.vad_get_last_error, hh]
  · intro hh henv
    simp [Jni.vad_get_last_error, hh, henv]
  · intro hh henv hlk
    simp [Jni.vad_get_last_error, hh, henv, hlk]
  · intro m hh henv hlk
    simp [Jni.vad_get_last_error, hh, henv, hlk, Jni.observe]
  · intro hh henv hlk
    simp [Jni.vad_get_last_error, hh, henv, hlk]

/-- Witness for the amended C4: a concrete lookup with stored message "boom"
returns the static buffer. -/
theorem get_last_error_never_null_witness :
    (Jni.vad_get_last_error [] 3 true
      (fun _ => some (Jni.ErrFetch.msg "boom".toList))).ret =
      some Jni.CharPtr.staticBuf :=
  ((get_last_error_never_null [] 3 true
    (fun _ => some (Jni.ErrFetch.msg "boom".toList)) 0).2.2.2.2.2.1
    "boom".toList (by simp) rfl rfl).1

/-- C9 counterexample: the stub build's vad_create consults no state and
returns the dummy non-null pointer 1 on every call, so two successful
create calls observe the same id — ids are not distinct. -/
theorem create_ids_not_distinct_counterexample :
    Stub.stubCreateResults 2 = [1, 1] ∧
    ¬ (Stub.stubCreateResults 2).Nodup ∧
    Stub.vad_create ≠ 0 := by
  refine ⟨rfl, ?_, by simp [Stub.vad_create]⟩
  intro h
  simp [Stub.stubCreateResults, Stub.vad_create, List.range_succ] at h

/-- The registry invariant: every id handed out so far is below the counter,
and the handed-out ids are pairwise distinct; both are preserved by every
operation sequence. -/
theorem runReg_invariant (ops : List Jni.RegOp) (r : Jni.Registry) (acc : List ℕ)
    (hlt : ∀ x ∈ acc, x < r.nextId) (hnd : acc.Nodup) :
    (∀ x ∈ (ops.foldl Jni.regStep (r, acc)).2,
      x < (ops.foldl Jni.regStep (r, acc)).1.nextId) ∧
    (ops.foldl Jni.regStep (r, acc)).2.Nodup := by
  induction ops generalizing r acc with
  | nil => exact ⟨hlt, hnd⟩
  | cons op l ih =>
      cases op with
      | create =>
          apply ih
          · intro x hx
            rcases List.mem_append.mp hx with h | h
            · exact Nat.lt_succ_of_lt (hlt x h)
            · have : x = r.nextId := by simpa using h
              simp [this]
          · refine List.Nodup.append hnd (List.nodup_singleton _) ?_
            intro a ha hb
            have : a = r.nextId := by simpa using hb
            exact absurd (hlt a ha) (by simp [this])
      | remove id => exact ih _ _ hlt hnd

/-- C9 amended: in the stub build every vad_create call returns the same
dummy handle, so distinctness fails there; in the JNI build vad_create
returns the id issued by the host-side registry (modelled from the spec as a
monotone fresh counter), and then over every sequence of create and remove
operations the ids handed out are pairwise distinct — in particular an id is
never reused after its session is destroyed. -/
theorem registry_ids_distinct (ops : List Jni.RegOp) :
    (Jni.runReg ops).2.Nodup :=
  (runReg_invariant ops ⟨0, []⟩ [] (by simp) List.nodup_nil).2

/-- C10: whenever vad_get_last_error reaches a valid handle and obtains a
non-null message, it copies at most 1023 bytes of the message into the
process-wide static buffer (longer messages are truncated) and returns a
pointer to that buffer; a later such call for any handle overwrites the
buffer, i.e. the contents observed through every previously returned
static-buffer pointer become the later message's truncation. -/
theorem get_last_error_static_buffer (buf : List Char) (h1 h2 : ℕ)
    (lk1 lk2 : ℕ → Option Jni.ErrFetch) (m1 m2 : List Char)
    (hh1 : h1 ≠ 0) (hh2 : h2 ≠ 0)
    (hl1 : lk1 h1 = some (Jni.ErrFetch.msg m1))
    (hl2 : lk2 h2 = some (Jni.ErrFetch.msg m2)) :
    (Jni.vad_get_last_error buf h1 true lk1).ret = some Jni.CharPtr.staticBuf ∧
    (Jni.vad_get_last_error buf h1 true lk1).buf = m1.take 1023 ∧
    (Jni.vad_get_last_error buf h1 true lk1).buf.length ≤ 1023 ∧
    (Jni.vad_get_last_error (Jni.vad_get_last_error buf h1 true lk1).buf
      h2 true lk2).buf = m2.take 1023 ∧
    Jni.observe Jni.CharPtr.staticBuf
      (Jni.vad_get_last_error (Jni.vad_get_last_error buf h1 true lk1).buf
        h2 true lk2).buf = m2.take 1023 := by
  refine ⟨?_, ?_, ?_, ?_, ?_⟩ <;>
    simp [Jni.vad_get_last_error, hh1, hh2, hl1, hl2, Jni.observe,
      List.length_take]

/-- Witness for C10 at two concrete successive calls. -/
theorem get_last_error_static_buffer_witness :
    (Jni.vad_get_last_error [] 1 true
      (fun _ => some (Jni.ErrFetch.msg "first".toList))).ret =
      some Jni.CharPtr.staticBuf :=
  (get_last_error_static_buffer [] 1 1
    (fun _ => some (Jni.ErrFetch.msg "first".toList))
    (fun _ => some (Jni.ErrFetch.msg "second".toList))
    "first".toList "second".toList (by simp) (by simp) rfl rfl).1

end VadPlus
